import Mathlib

/-!
Verification of the MCP coordinator client core: a shallow embedding of
`src/mcp_coordinator/core/client.py` (the lazy-loading client manager and its
connection state machine), `src/mcp_coordinator/discovery.py` (bulk server
discovery), and `src/mcp_coordinator/coordinator_client.py` (the runtime
coordinator client), together with theorems settling the behavioural claims
about these modules.

Modelling conventions:
- Python dictionaries keyed by server name are represented as association
  lists `List (String × α)`; dictionaries used only as key sets (the context
  maps whose values are opaque context managers) are represented as
  `List String`.
- Asynchronous operations that wait on external processes or sockets are
  parameterised by outcome oracles (e.g. `ConnectOutcome`, `CallOutcome`):
  the external world decides whether a handshake succeeds, times out, or
  throws, and the embedding computes the resulting manager state and the
  raised or returned value for each possible outcome.
- Python exceptions are an inductive `PyExc` recording the exception class
  and message; `raise X from e` is `PyExc.runtimeErrorFrom` carrying the
  cause.
- Timeout durations (floats in the source) are abstract `Nat` tick counts;
  only their appearance in error messages matters to the claims.
-/

namespace McpCoordinator

/-- Association-list lookup, modelling `d.get(k)` / `d[k]` presence tests on
a Python dict keyed by strings. -/
def lookupKey {α : Type} (l : List (String × α)) (k : String) : Option α :=
  (l.find? (fun p => p.1 = k)).map Prod.snd

/-- Association-list key removal, modelling `del d[k]` / `d.pop(k)`. -/
def eraseKey {α : Type} (l : List (String × α)) (k : String) : List (String × α) :=
  l.filter (fun p => p.1 ≠ k)

/-- Association-list update, modelling `d[k] = v`.  In every use site of the
source the key is absent when written (sessions and caches are only written
on a miss), so erase-then-append is faithful up to ordering. -/
def setKey {α : Type} (l : List (String × α)) (k : String) (v : α) : List (String × α) :=
  eraseKey l k ++ [(k, v)]

/-- Key-set insertion, modelling `d[k] = ctx` on a dict used only for its
keys (the opaque context-manager maps). -/
def addName (l : List String) (k : String) : List String :=
  if k ∈ l then l else k :: l

/-- Key-set removal, modelling `del d[k]` guarded by `k in d`. -/
def removeName (l : List String) (k : String) : List String :=
  l.filter (fun x => x ≠ k)

/-- Python exceptions, by class and message.  `runtimeErrorFrom` is
`raise RuntimeError(msg) from cause`; `other` stands for arbitrary
exceptions coming out of the MCP SDK. -/
inductive PyExc : Type where
  | valueError (msg : String)
  | runtimeError (msg : String)
  | timeoutError (msg : String)
  | fileNotFoundError (msg : String)
  | runtimeErrorFrom (msg : String) (cause : PyExc)
  | other (msg : String)
deriving DecidableEq, Repr

/-- `str(e)` on a Python exception: its message. -/
def PyExc.message : PyExc → String
  | .valueError m => m
  | .runtimeError m => m
  | .timeoutError m => m
  | .fileNotFoundError m => m
  | .runtimeErrorFrom m _ => m
  | .other m => m

/-- Modelled from the spec: `ServerConfig` (§3 DATA MODEL).  The defining
module `core/config.py` is not present in the source tree; the fields are
those the spec lists and `core/client.py` reads: transport tag `type`
(accessed as `server_config.type`), launch `command`/`args`/`env` for the
stdio transport, `url` for the sse transport, and the `disabled` flag. -/
structure ServerConfig : Type where
  type : String
  command : Option String
  args : List String
  env : List (String × String)
  url : Option String
  disabled : Bool
deriving DecidableEq, Repr

/-- Modelled from the spec: `McpConfig` (§3, §6) — a configuration source
exposing a mapping from server name to `ServerConfig`.  `core/config.py` is
not present in the source tree. -/
structure McpConfig : Type where
  servers : List (String × ServerConfig)
deriving DecidableEq, Repr

/-- Modelled from the spec: `McpConfig.get_server` — lookup of one server's
configuration by name, `None` when the name is absent. -/
def McpConfig.get_server (c : McpConfig) (name : String) : Option ServerConfig :=
  lookupKey c.servers name

/-- A tool descriptor (`mcp.types.Tool`): name, description, input schema,
all opaque to the client core. -/
structure Tool : Type where
  name : String
  description : String
  inputSchema : String
deriving DecidableEq, Repr

/-- The result envelope of one tool call (`CallToolResult`).  `withContent`
is a result carrying a `content` attribute; `plain` is a result without
one (the `hasattr` fallback branch of `call_tool`). -/
inductive ToolResult : Type where
  | withContent (content : String)
  | plain (value : String)
deriving DecidableEq, Repr

/-- The value `McpClientManager.call_tool` returns: the unwrapped content
payload when the envelope has one, otherwise the raw result. -/
inductive CallValue : Type where
  | content (s : String)
  | raw (r : ToolResult)
deriving DecidableEq, Repr

/-- The result unwrapping at the end of `call_tool`:
`if hasattr(result, "content"): return result.content` else the raw result. -/
def unwrapResult : ToolResult → CallValue
  | .withContent s => .content s
  | .plain v => .raw (.plain v)

/-- `ConnectionState`: the manager lifecycle states. -/
inductive ConnectionState : Type where
  | UNINITIALIZED
  | INITIALIZED
  | CONNECTED
deriving DecidableEq, Repr

/-- The `.value` string of each state. -/
def ConnectionState.value : ConnectionState → String
  | .UNINITIALIZED => "uninitialized"
  | .INITIALIZED => "initialized"
  | .CONNECTED => "connected"

/-- `state_order.index(s)` in `_validate_state_at_least`. -/
def stateIdx : ConnectionState → Nat
  | .UNINITIALIZED => 0
  | .INITIALIZED => 1
  | .CONNECTED => 2

/-- `McpClientManager`'s mutable state: lifecycle state, loaded config, the
session map (values are abstract session identifiers), the per-server tool
cache, and the four per-server context/stream registries used for manual
lifecycle management (kept as key sets: their values are opaque context
managers).  `connect_timeout` and `read_timeout` are loaded once in
`__init__`. -/
structure Mgr : Type where
  state : ConnectionState
  config : Option McpConfig
  sessions : List (String × Nat)
  tools_cache : List (String × List Tool)
  stdio_contexts : List String
  session_contexts : List String
  read_streams : List String
  write_streams : List String
  connect_timeout : Nat
  read_timeout : Nat
deriving DecidableEq, Repr

/-- A freshly constructed manager (`__init__`). -/
def Mgr.new (connect_timeout read_timeout : Nat) : Mgr :=
  { state := .UNINITIALIZED
    config := none
    sessions := []
    tools_cache := []
    stdio_contexts := []
    session_contexts := []
    read_streams := []
    write_streams := []
    connect_timeout := connect_timeout
    read_timeout := read_timeout }

/-- `_validate_state_at_least`: `some e` when the manager has not reached
the minimum state (the RuntimeError raised), `none` when the check passes. -/
def validateStateAtLeast (m : Mgr) (minimum : ConnectionState) (operation : String) : Option PyExc :=
  if stateIdx m.state < stateIdx minimum then
    let cur := m.state.value
    let req := minimum.value
    some (.runtimeError s!"Cannot {operation}: Manager is in state {cur}, but requires at least state {req}")
  else
    none

/-- `_mark_initialized`: unconditional transition to INITIALIZED. -/
def markInit (m : Mgr) : Mgr :=
  { m with state := .INITIALIZED }

/-- `_mark_connected`: transition INITIALIZED → CONNECTED; in any other
state the guard leaves the state unchanged. -/
def markConnected (m : Mgr) : Mgr :=
  if m.state = .INITIALIZED then { m with state := .CONNECTED } else m

/-- `_mark_uninitialized`: unconditional reset to UNINITIALIZED. -/
def markUninit (m : Mgr) : Mgr :=
  { m with state := .UNINITIALIZED }

/-- How far the inner `_connect()` coroutine of `_connect_stdio` /
`_connect_sse` progressed before a timeout or an exception interrupted it:
before the transport context was entered, after the transport context and
streams were stored, or after the session context was also stored. -/
inductive ConnectProgress : Type where
  | beforeTransport
  | afterTransport
  | afterSession
deriving DecidableEq, Repr

/-- Outcome oracle for one session-establishment attempt: the handshake
completes with a fresh session id, the connect-timeout fires at some
progress point, or the attempt throws at some progress point. -/
inductive ConnectOutcome : Type where
  | success (sid : Nat)
  | timeoutAt (p : ConnectProgress)
  | failAt (e : PyExc) (p : ConnectProgress)
deriving DecidableEq, Repr

/-- The registry entries `_connect()` has stored at a given progress point:
`self._stdio_contexts[name]`, `self._read_streams[name]` and
`self._write_streams[name]` after the transport context is entered, plus
`self._session_contexts[name]` after the session context is entered. -/
def storeProgress (m : Mgr) (name : String) : ConnectProgress → Mgr
  | .beforeTransport => m
  | .afterTransport =>
      { m with stdio_contexts := addName m.stdio_contexts name
               read_streams := addName m.read_streams name
               write_streams := addName m.write_streams name }
  | .afterSession =>
      { m with stdio_contexts := addName m.stdio_contexts name
               read_streams := addName m.read_streams name
               write_streams := addName m.write_streams name
               session_contexts := addName m.session_contexts name }

/-- `_connect_stdio`: fails with ValueError when the config has no command;
otherwise runs the inner `_connect()` under `asyncio.wait_for` with the
connect-timeout, storing contexts and streams as it progresses.  On timeout
it raises `TimeoutError` naming the server and the configured duration.
Environment merging and command resolution mutate only the subprocess
environment (modelled separately by `resolve_command`), never the manager.
The Bool records whether a transport open / handshake was attempted. -/
def connectStdio (m : Mgr) (name : String) (cfg : ServerConfig) (oc : ConnectOutcome) :
    Except PyExc Nat × Mgr × Bool :=
  match cfg.command with
  | none => (.error (.valueError s!"Server {name} missing command"), m, false)
  | some _ =>
    match oc with
    | .success sid => (.ok sid, storeProgress m name .afterSession, true)
    | .timeoutAt p =>
        let t := m.connect_timeout
        (.error (.timeoutError s!"Connection to {name} timed out after {t}s"), storeProgress m name p, true)
    | .failAt e p => (.error e, storeProgress m name p, true)

/-- `_connect_sse`: fails with ValueError when the config has no url;
otherwise identical in shape to `connectStdio` (the source stores the sse
context in the same `_stdio_contexts` registry). -/
def connectSse (m : Mgr) (name : String) (cfg : ServerConfig) (oc : ConnectOutcome) :
    Except PyExc Nat × Mgr × Bool :=
  match cfg.url with
  | none => (.error (.valueError s!"Server {name} missing url"), m, false)
  | some _ =>
    match oc with
    | .success sid => (.ok sid, storeProgress m name .afterSession, true)
    | .timeoutAt p =>
        let t := m.connect_timeout
        (.error (.timeoutError s!"Connection to {name} timed out after {t}s"), storeProgress m name p, true)
    | .failAt e p => (.error e, storeProgress m name p, true)

/-- `_cleanup_server`: closes and removes this one server's session context,
transport context, session entry and streams.  Close errors are caught and
logged inside the source, never re-raised, so the state effect is the
removal of the entries regardless of close outcomes. -/
def cleanupServer (m : Mgr) (name : String) : Mgr :=
  { m with session_contexts := removeName m.session_contexts name
           stdio_contexts := removeName m.stdio_contexts name
           sessions := eraseKey m.sessions name
           read_streams := removeName m.read_streams name
           write_streams := removeName m.write_streams name }

instance exceptDecEq {ε α : Type} [DecidableEq ε] [DecidableEq α] : DecidableEq (Except ε α) := fun a b =>
  match a, b with
  | .ok x, .ok y =>
      if h : x = y then .isTrue (by rw [h]) else .isFalse (by intro hc; cases hc; exact h rfl)
  | .ok _, .error _ => .isFalse (by intro hc; cases hc)
  | .error _, .ok _ => .isFalse (by intro hc; cases hc)
  | .error x, .error y =>
      if h : x = y then .isTrue (by rw [h]) else .isFalse (by intro hc; cases hc; exact h rfl)

/-- Result of `_connect_to_server`: raised-or-returned session id, resulting
manager state, and whether a transport open / handshake was attempted. -/
structure ConnectRes : Type where
  result : Except PyExc Nat
  mgr : Mgr
  attempted : Bool
deriving DecidableEq, Repr

/-- `_connect_to_server`: return the existing session if there is one;
otherwise dispatch on the transport tag (ValueError for an unsupported
tag), and on success store the session and mark the manager CONNECTED; any
exception during establishment triggers `_cleanup_server` for this one
server before it propagates. -/
def connectToServer (m : Mgr) (name : String) (cfg : ServerConfig) (oc : ConnectOutcome) : ConnectRes :=
  match lookupKey m.sessions name with
  | some sid => ⟨.ok sid, m, false⟩
  | none =>
    let ty := cfg.type
    let attempt : Except PyExc Nat × Mgr × Bool :=
      if cfg.type = "stdio" then connectStdio m name cfg oc
      else if cfg.type = "sse" then connectSse m name cfg oc
      else (.error (.valueError s!"Unsupported transport: {ty}"), m, false)
    match attempt with
    | (.ok sid, m1, att) =>
        ⟨.ok sid, markConnected { m1 with sessions := setKey m1.sessions name sid }, att⟩
    | (.error e, m1, att) => ⟨.error e, cleanupServer m1 name, att⟩

/-- Outcome oracle for one tool invocation on an open session: the call
returns a result envelope, the read-timeout fires, or the underlying call
throws. -/
inductive CallOutcome : Type where
  | ok (r : ToolResult)
  | timeout
  | fail (e : PyExc)
deriving DecidableEq, Repr

/-- Result of `call_tool`: raised-or-returned value, resulting manager
state, and whether a connection attempt was made. -/
structure CallRes : Type where
  result : Except PyExc CallValue
  mgr : Mgr
  connectAttempted : Bool
deriving DecidableEq, Repr

/-- `McpClientManager.call_tool`: validate state ≥ INITIALIZED, require a
loaded config, look up the server (ValueError when absent), reject disabled
servers (ValueError), lazily connect, then issue the call under the
read-timeout; a timeout raises `TimeoutError` naming tool, server and
duration and leaves the session in place; any other failure of the
underlying call propagates unchanged; a result envelope is unwrapped. -/
def Mgr.call_tool (m : Mgr) (server tool : String) (co : ConnectOutcome) (ro : CallOutcome) : CallRes :=
  match validateStateAtLeast m .INITIALIZED "call_tool" with
  | some e => ⟨.error e, m, false⟩
  | none =>
    match m.config with
    | none => ⟨.error (.runtimeError "Configuration not loaded"), m, false⟩
    | some cfg =>
      match cfg.get_server server with
      | none => ⟨.error (.valueError s!"Server {server} not found in configuration"), m, false⟩
      | some sc =>
        if sc.disabled then
          ⟨.error (.valueError s!"Server {server} is disabled"), m, false⟩
        else
          let cr := connectToServer m server sc co
          match cr.result with
          | .error e => ⟨.error e, cr.mgr, cr.attempted⟩
          | .ok _ =>
            match ro with
            | .timeout =>
                let t := m.read_timeout
                ⟨.error (.timeoutError s!"Tool call {tool} on {server} timed out after {t}s"), cr.mgr, cr.attempted⟩
            | .fail e => ⟨.error e, cr.mgr, cr.attempted⟩
            | .ok r => ⟨.ok (unwrapResult r), cr.mgr, cr.attempted⟩

/-- Outcome oracle for one `session.list_tools()` protocol call (the source
wraps this call in no timeout). -/
inductive ListOutcome : Type where
  | ok (tools : List Tool)
  | fail (e : PyExc)
deriving DecidableEq, Repr

/-- Result of `list_tools`: raised-or-returned descriptor list, resulting
manager state, whether a connection attempt was made, and how many
underlying list-tools protocol calls were issued. -/
structure ListRes : Type where
  result : Except PyExc (List Tool)
  mgr : Mgr
  connectAttempted : Bool
  protocolCalls : Nat
deriving DecidableEq, Repr

/-- `McpClientManager.list_tools`: validate state ≥ INITIALIZED, return the
cached list on a hit; on a miss require a loaded config, look up the server
(ValueError when absent — note: no disabled check on this path), lazily
connect, issue the list-tools protocol call, and cache the result before
returning it. -/
def Mgr.list_tools (m : Mgr) (server : String) (co : ConnectOutcome) (lo : ListOutcome) : ListRes :=
  match validateStateAtLeast m .INITIALIZED "list_tools" with
  | some e => ⟨.error e, m, false, 0⟩
  | none =>
    match lookupKey m.tools_cache server with
    | some ts => ⟨.ok ts, m, false, 0⟩
    | none =>
      match m.config with
      | none => ⟨.error (.runtimeError "Configuration not loaded"), m, false, 0⟩
      | some cfg =>
        match cfg.get_server server with
        | none => ⟨.error (.valueError s!"Server {server} not found"), m, false, 0⟩
        | some sc =>
          let cr := connectToServer m server sc co
          match cr.result with
          | .error e => ⟨.error e, cr.mgr, cr.attempted, 0⟩
          | .ok _ =>
            match lo with
            | .fail e => ⟨.error e, cr.mgr, cr.attempted, 1⟩
            | .ok ts =>
                ⟨.ok ts, { cr.mgr with tools_cache := setKey cr.mgr.tools_cache server ts }, cr.attempted, 1⟩

/-- The state `cleanup()` leaves behind: every per-server registry cleared
and the state reset to UNINITIALIZED (the loaded config is not cleared by
the source). -/
def cleanupState (m : Mgr) : Mgr :=
  markUninit
    { m with sessions := []
             tools_cache := []
             session_contexts := []
             stdio_contexts := []
             read_streams := []
             write_streams := [] }

/-- Result of `cleanup`: the returned value (always success — every close
error is caught), the resulting manager, and the names whose session or
transport close raised (those exceptions are only logged: at debug level
for cancel-scope artifacts, at error level otherwise, and never re-raised). -/
structure CleanupRes : Type where
  result : Except PyExc Unit
  mgr : Mgr
  logged : List String
deriving DecidableEq, Repr

/-- `McpClientManager.cleanup`: iterate over all session contexts and all
transport contexts closing each one, catching every close exception
(`sessionCloseErr` and `transportCloseErr` are the per-server close-failure
oracles); then clear the session map, tool cache, context registries and
streams, and reset the state to UNINITIALIZED unconditionally. -/
def Mgr.cleanup (m : Mgr) (sessionCloseErr transportCloseErr : String → Option PyExc) : CleanupRes :=
  let loggedSessions := m.session_contexts.filter (fun n => (sessionCloseErr n).isSome)
  let loggedTransports := m.stdio_contexts.filter (fun n => (transportCloseErr n).isSome)
  ⟨.ok (), cleanupState m, loggedSessions ++ loggedTransports⟩

/-- Outcome oracle for configuration loading in `initialize`: either some
configuration file was located and parsed, or none could be found. -/
inductive InitOutcome : Type where
  | loaded (c : McpConfig)
  | notFound
deriving DecidableEq, Repr

/-- `McpClientManager.initialize` (re-running while already in a later
state only logs a warning): load the configuration and transition to
INITIALIZED; when no configuration file can be located and none is already
loaded, raise FileNotFoundError and leave the state unchanged; when a
config is already loaded from a previous call, the default-location search
coming up empty still marks the manager INITIALIZED with the old config. -/
def Mgr.initManager (m : Mgr) (io : InitOutcome) : Except PyExc Unit × Mgr :=
  match io with
  | .loaded c => (.ok (), markInit { m with config := some c })
  | .notFound =>
      match m.config with
      | none => (.error (.fileNotFoundError "Could not find MCP configuration file"), m)
      | some _ => (.ok (), markInit m)

/-- One externally observable manager operation together with its outcome
oracles, for reasoning about operation sequences. -/
inductive MOp : Type where
  | initOp (io : InitOutcome)
  | callToolOp (server tool : String) (co : ConnectOutcome) (ro : CallOutcome)
  | listToolsOp (server : String) (co : ConnectOutcome) (lo : ListOutcome)
  | cleanupOp
deriving DecidableEq, Repr

/-- Whether an operation is an `initialize` call. -/
def MOp.isInitOp : MOp → Bool
  | .initOp _ => true
  | _ => false

/-- The manager state reached after one operation (the raised or returned
value is dropped; every operation of the embedding also yields its
post-state on error paths). -/
def Mgr.step (m : Mgr) : MOp → Mgr
  | .initOp io => (m.initManager io).2
  | .callToolOp server tool co ro => (m.call_tool server tool co ro).mgr
  | .listToolsOp server co lo => (m.list_tools server co lo).mgr
  | .cleanupOp => cleanupState m

/-- The manager state reached after a sequence of operations. -/
def Mgr.runOps (m : Mgr) : List MOp → Mgr
  | [] => m
  | op :: ops => (m.step op).runOps ops

/-- The spec §3 connection invariant: the manager is CONNECTED exactly when
at least one server session is in the session map. -/
def connInv (m : Mgr) : Prop :=
  m.state = .CONNECTED ↔ m.sessions ≠ []

instance (m : Mgr) : Decidable (connInv m) := by
  unfold connInv
  infer_instance

/-- A trace condition: along the sequence, `initialize` is never invoked
while the session map is nonempty. -/
def noReinitOpen : Mgr → List MOp → Prop
  | _, [] => True
  | m, op :: ops => (op.isInitOp = true → m.sessions = []) ∧ noReinitOpen (m.step op) ops

instance noReinitOpenDec (m : Mgr) (ops : List MOp) : Decidable (noReinitOpen m ops) :=
  match ops with
  | [] => isTrue trivial
  | op :: rest =>
      have : Decidable (noReinitOpen (m.step op) rest) := noReinitOpenDec (m.step op) rest
      inferInstanceAs (Decidable (_ ∧ _))

/- ## Command resolution (`McpClientManager._resolve_command`)

The filesystem and platform facts the resolver consults are collected in
`FS`.  PATH variable values are represented by their list of
`os.pathsep`-separated entries (join and split are identities under this
representation), and the environment mapping by its PATH entry — the only
key the resolver reads or writes. -/

/-- The filesystem / platform oracle for command resolution: the user's
home directory, the `os.environ` PATH entries (the fallback when the
passed environment has none), whether `~/.nvm/versions/node` exists and
what its directory entries are, a directory test, an executable-file test
(what `shutil.which` accepts), the platform flag, and the Windows
`APPDATA`/`LOCALAPPDATA` variables. -/
structure FS : Type where
  home : String
  osPATH : List String
  nvmRootExists : Bool
  nvmEntries : List String
  isDir : String → Bool
  isExec : String → Bool
  win32 : Bool
  appdata : Option String
  localappdata : Option String

/-- The nvm install root `~/.nvm/versions/node`. -/
def FS.nvmRoot (fs : FS) : String :=
  fs.home ++ "/.nvm/versions/node"

/-- `shutil.which(command, path=...)` for a bare command name: the first
directory of the search path whose joined candidate is an executable file
(empty path entries, which Python resolves against the working directory,
are not modelled; the claims concern bare names only). -/
def whichList (fs : FS) (command : String) (dirs : List String) : Option String :=
  dirs.findSome? (fun d =>
    if fs.isExec (d ++ "/" ++ command) then some (d ++ "/" ++ command) else none)

/-- The seven fixed Unix-like search roots of `_resolve_command`. -/
def unixStaticPaths (fs : FS) : List String :=
  [fs.home ++ "/.pyenv/shims", fs.home ++ "/.cargo/bin", fs.home ++ "/.local/bin",
   "/usr/local/bin", "/usr/bin", "/bin", "/opt/homebrew/bin"]

/-- The per-version nvm `bin` directories: when `~/.nvm/versions/node`
exists, each entry of its `iterdir()` that is a directory contributes its
`bin` subdirectory. -/
def nvmBinPaths (fs : FS) : List String :=
  if fs.nvmRootExists then
    (fs.nvmEntries.filter (fun e => fs.isDir (fs.nvmRoot ++ "/" ++ e))).map
      (fun e => fs.nvmRoot ++ "/" ++ e ++ "/bin")
  else []

/-- The ordered `common_paths` list on Unix-like platforms: the seven fixed
roots followed by the nvm version `bin` directories. -/
def unixCommonPaths (fs : FS) : List String :=
  unixStaticPaths fs ++ nvmBinPaths fs

/-- The `common_paths` list on Windows: `%APPDATA%/npm`, the
`LOCALAPPDATA` Python scripts and uv directories, and `~/.cargo/bin`
(path separators are modelled uniformly with `/`). -/
def win32CommonPaths (fs : FS) : List String :=
  (match fs.appdata with
   | some a => [a ++ "/npm"]
   | none => []) ++
  (match fs.localappdata with
   | some l => [l ++ "/Programs/Python/Scripts", l ++ "/uv"]
   | none => []) ++
  [fs.home ++ "/.cargo/bin"]

/-- The environment mapping as seen by the resolver: its PATH variable,
`none` when PATH is unset, otherwise its entry list. -/
structure PEnv : Type where
  path : Option (List String)
deriving DecidableEq, Repr

/-- `McpClientManager._resolve_command`: first search the PATH of the
passed environment (falling back to the process PATH when the environment
has none); on a miss build the platform's `common_paths` search list,
prepend it to the environment's PATH variable (mutating the mapping the
caller passed), and search it; when still unresolved return the original
command unchanged.  Returns the resolved command and the updated
environment. -/
def resolve_command (fs : FS) (command : String) (env : PEnv) : String × PEnv :=
  let path_env :=
    match env.path with
    | some p => p
    | none => fs.osPATH
  match whichList fs command path_env with
  | some r => (r, env)
  | none =>
    let common_paths := if fs.win32 then win32CommonPaths fs else unixCommonPaths fs
    let current_path :=
      match env.path with
      | some p => p
      | none => []
    let env2 : PEnv :=
      ⟨some (if current_path ≠ [] then common_paths ++ current_path else common_paths)⟩
    match whichList fs command common_paths with
    | some r => (r, env2)
    | none => (command, env2)

/- ## Bulk discovery (`discovery.py`) -/

/-- `MCPServerConfig` (discovery.py): configuration of one server for
introspection. -/
structure MCPServerConfig : Type where
  name : String
  command : String
  args : List String
  env : List (String × String)
  transport_type : String
deriving DecidableEq, Repr

/-- One per-server discovery record: the success shape carries the tool,
resource and prompt descriptors (represented by their names); the failure
shape has `error` set and all three capability maps empty. -/
structure DiscResult : Type where
  name : String
  error : Option String
  tools : List String
  resources : List String
  prompts : List String
deriving DecidableEq, Repr

/-- Outcome oracle for one `ServerIntrospector.discover_tools` run: either
the session opened, the mandatory tool-list call succeeded and the optional
resource- and prompt-list calls yielded these descriptor sets (a failing
optional call contributes the empty set), or some exception `msg` occurred
(connection, handshake, tool-list failure, or the inner 10-second
introspection timeout). -/
inductive IntrospectOutcome : Type where
  | ok (tools resources prompts : List String)
  | failure (msg : String)
deriving DecidableEq, Repr

/-- `ServerIntrospector.discover_tools`: never raises — any `BaseException`
during connection or discovery is caught and turned into an error record
for this server (the message also embeds the traceback and captured
stderr, summarised here as the exception message). -/
def discover_tools (cfg : MCPServerConfig) (io : IntrospectOutcome) : DiscResult :=
  match io with
  | .ok ts rs ps => ⟨cfg.name, none, ts, rs, ps⟩
  | .failure msg => ⟨cfg.name, some s!"Failed to connect: {msg}", [], [], []⟩

/-- Outcome oracle for one `_discover_one` task: the introspection coroutine
completes (with a success or error record) within the discovery timeout,
the `asyncio.wait_for` discovery timeout fires, or the task raises. -/
inductive TaskOutcome : Type where
  | completes (io : IntrospectOutcome)
  | timesOut
  | raises (msg : String)
deriving DecidableEq, Repr

/-- `_discover_one` (inside `discover_all_servers`): run one server's
introspection under the discovery timeout; a timeout or an exception is
caught and produces an error record for this server's name; the task always
returns a `(name, record)` pair and never raises. -/
def discover_one (name : String) (cfg : MCPServerConfig) (oc : TaskOutcome)
    (discovery_timeout : Nat) : String × DiscResult :=
  match oc with
  | .completes io => (name, discover_tools cfg io)
  | .timesOut =>
      let t := discovery_timeout
      (name, ⟨name, some s!"Discovery timed out after {t}s", [], [], []⟩)
  | .raises msg => (name, ⟨name, some s!"Discovery failed: {msg}", [], [], []⟩)

/-- `discover_all_servers`: one discovery task per configured server (each
with a fresh, throwaway introspector), gathered and merged into the final
mapping.  The semaphore bounding task concurrency to ten schedules the
tasks but does not change any task's own outcome, so the reduction is the
pointwise map of `discover_one` over the configured servers; the oracle
gives each server's outcome independently. -/
def discover_all_servers (configs : List (String × MCPServerConfig))
    (oracle : String → TaskOutcome) (discovery_timeout : Nat) :
    List (String × DiscResult) :=
  configs.map (fun p => discover_one p.1 p.2 (oracle p.1) discovery_timeout)

/- ## Coordinator client (`coordinator_client.py`) -/

/-- `CoordinatorClient`'s mutable state: the loaded configs, the session
map (values are abstract session identifiers; the source stores
`(session, session_ctx)` pairs), the transport context registry, and the
per-server connection lock registry (as a key set). -/
structure CClient : Type where
  configs : List (String × MCPServerConfig)
  sessions : List (String × Nat)
  stdio_contexts : List String
  connection_locks : List String
deriving DecidableEq, Repr

/-- Outcome oracle for one coordinator connection attempt (transport open,
handshake): success with a fresh session id, or a failure, recording
whether the transport context had already been entered and stored when the
failure occurred. -/
inductive CConnectOutcome : Type where
  | ok (sid : Nat)
  | fail (e : PyExc) (transportStored : Bool)
deriving DecidableEq, Repr

/-- Result of `_ensure_connected`: raised-or-returned session id, resulting
client state, and whether a connection attempt (transport open plus
handshake) was made. -/
structure EnsureRes : Type where
  result : Except PyExc Nat
  client : CClient
  attempted : Bool
deriving DecidableEq, Repr

/-- `CoordinatorClient._ensure_connected`: create this server's connection
lock if absent, then — atomically under that lock, which serialises
concurrent callers for the same name — re-check the session map and return
the existing session on a hit; otherwise look up the config (ValueError
when absent), prepare the environment, resolve the command, open the
transport and run the handshake, and store the transport context and the
new session.  The whole body runs inside `async with lock`, so two
concurrent invocations for one name execute it one after the other. -/
def CClient.ensure_connected (c : CClient) (server : String) (oc : CConnectOutcome) : EnsureRes :=
  let c0 :=
    if server ∈ c.connection_locks then c
    else { c with connection_locks := addName c.connection_locks server }
  match lookupKey c0.sessions server with
  | some sid => ⟨.ok sid, c0, false⟩
  | none =>
    match lookupKey c0.configs server with
    | none => ⟨.error (.valueError s!"Server {server} not found in config"), c0, false⟩
    | some _ =>
      match oc with
      | .ok sid =>
          ⟨.ok sid,
           { c0 with stdio_contexts := addName c0.stdio_contexts server
                     sessions := setKey c0.sessions server sid },
           true⟩
      | .fail e stored =>
          ⟨.error e,
           if stored then { c0 with stdio_contexts := addName c0.stdio_contexts server } else c0,
           true⟩

/-- Outcome oracle for one `session.call_tool` invocation through the
coordinator (the source wraps this call in no timeout). -/
inductive CCallOutcome : Type where
  | ok (r : ToolResult)
  | fail (e : PyExc)
deriving DecidableEq, Repr

/-- Result of `CoordinatorClient.call_tool`. -/
structure CCallRes : Type where
  result : Except PyExc String
  client : CClient
deriving DecidableEq, Repr

/-- The wrapper message of `CoordinatorClient.call_tool`:
`f"Failed to call {tool_name} on {server_name}: {e}"`. -/
def failMsg (server tool msg : String) : String :=
  "Failed to call " ++ tool ++ " on " ++ server ++ ": " ++ msg

/-- `CoordinatorClient.call_tool`: ensure the server is connected, then
issue the call; any exception out of the call (or out of the `.content`
access) is wrapped as `RuntimeError(f"Failed to call {tool} on {server}:
{e}") from e`, naming server and tool and carrying the original exception
as its cause. -/
def CClient.call_tool (c : CClient) (server tool : String) (co : CConnectOutcome)
    (ro : CCallOutcome) : CCallRes :=
  let er := c.ensure_connected server co
  match er.result with
  | .error e => ⟨.error e, er.client⟩
  | .ok _ =>
    match ro with
    | .ok (.withContent s) => ⟨.ok s, er.client⟩
    | .ok (.plain _) =>
        let cause := PyExc.other "CallToolResult object has no attribute content"
        ⟨.error (.runtimeErrorFrom (failMsg server tool cause.message) cause), er.client⟩
    | .fail e =>
        ⟨.error (.runtimeErrorFrom (failMsg server tool e.message) e), er.client⟩

/-- The shape of the single domain error §4.6 describes: a wrapper naming
both the server and the tool and carrying the original failure message as
its cause. -/
def wrapsFailure (server tool : String) : PyExc → Bool
  | .runtimeErrorFrom msg cause => msg = failMsg server tool cause.message
  | _ => false

/- ## Association-list and key-set lemmas -/

@[simp]
theorem lookupKey_nil {α : Type} (k : String) : lookupKey ([] : List (String × α)) k = none := rfl

@[simp]
theorem lookupKey_cons {α : Type} (p : String × α) (t : List (String × α)) (k : String) :
    lookupKey (p :: t) k = if p.1 = k then some p.2 else lookupKey t k := by
  by_cases h : p.1 = k <;> simp [lookupKey, List.find?, h]

@[simp]
theorem eraseKey_nil {α : Type} (k : String) : eraseKey ([] : List (String × α)) k = [] := rfl

@[simp]
theorem eraseKey_cons {α : Type} (p : String × α) (t : List (String × α)) (k : String) :
    eraseKey (p :: t) k = if p.1 = k then eraseKey t k else p :: eraseKey t k := by
  by_cases h : p.1 = k <;> simp [eraseKey, List.filter_cons, h]

theorem lookupKey_eraseKey_self {α : Type} (l : List (String × α)) (k : String) :
    lookupKey (eraseKey l k) k = none := by
  induction l with
  | nil => rfl
  | cons p t ih =>
      by_cases h : p.1 = k <;> simp [h, ih]

theorem lookupKey_eraseKey_ne {α : Type} (l : List (String × α)) (k k' : String) (h : k' ≠ k) :
    lookupKey (eraseKey l k) k' = lookupKey l k' := by
  induction l with
  | nil => rfl
  | cons p t ih =>
      by_cases hp : p.1 = k
      · have hne : k ≠ k' := fun hc => h hc.symm
        simp [hp, hne, ih]
      · by_cases hq : p.1 = k' <;> simp [hp, hq, h, ih]

theorem eraseKey_of_lookup_none {α : Type} (l : List (String × α)) (k : String)
    (h : lookupKey l k = none) : eraseKey l k = l := by
  induction l with
  | nil => rfl
  | cons p t ih =>
      by_cases hp : p.1 = k
      · simp [hp] at h
      · simp [hp] at h ⊢
        exact ih h

theorem lookupKey_append {α : Type} (l₁ l₂ : List (String × α)) (k : String) :
    lookupKey (l₁ ++ l₂) k =
      match lookupKey l₁ k with
      | some v => some v
      | none => lookupKey l₂ k := by
  induction l₁ with
  | nil => rfl
  | cons p t ih =>
      by_cases hp : p.1 = k <;> simp [hp, ih]

theorem lookupKey_setKey_self {α : Type} (l : List (String × α)) (k : String) (v : α) :
    lookupKey (setKey l k v) k = some v := by
  simp [setKey, lookupKey_append, lookupKey_eraseKey_self]

theorem lookupKey_setKey_ne {α : Type} (l : List (String × α)) (k k' : String) (v : α)
    (h : k' ≠ k) : lookupKey (setKey l k v) k' = lookupKey l k' := by
  simp [setKey, lookupKey_append, lookupKey_eraseKey_ne l k k' h]
  cases hl : lookupKey l k' <;> simp [h, Ne.symm h]

theorem setKey_ne_nil {α : Type} (l : List (String × α)) (k : String) (v : α) :
    setKey l k v ≠ [] := by
  simp [setKey]

@[simp]
theorem mem_removeName_iff (l : List String) (k x : String) :
    x ∈ removeName l k ↔ x ∈ l ∧ x ≠ k := by
  simp [removeName]

theorem not_mem_removeName_self (l : List String) (k : String) : k ∉ removeName l k := by
  simp

theorem mem_addName_iff (l : List String) (k x : String) :
    x ∈ addName l k ↔ x ∈ l ∨ x = k := by
  by_cases h : k ∈ l
  · simp [addName, h]
    intro hx
    rw [hx]; exact h
  · simp [addName, h, or_comm]

/- ## Projection lemmas for the connection layer -/

theorem lookupKey_ne_nil {α : Type} {l : List (String × α)} {k : String} {v : α}
    (h : lookupKey l k = some v) : l ≠ [] := by
  intro hl
  rw [hl] at h
  simp at h

@[simp]
theorem storeProgress_sessions (m : Mgr) (n : String) (p : ConnectProgress) :
    (storeProgress m n p).sessions = m.sessions := by cases p <;> rfl

@[simp]
theorem storeProgress_state (m : Mgr) (n : String) (p : ConnectProgress) :
    (storeProgress m n p).state = m.state := by cases p <;> rfl

@[simp]
theorem storeProgress_tools_cache (m : Mgr) (n : String) (p : ConnectProgress) :
    (storeProgress m n p).tools_cache = m.tools_cache := by cases p <;> rfl

@[simp]
theorem storeProgress_config (m : Mgr) (n : String) (p : ConnectProgress) :
    (storeProgress m n p).config = m.config := by cases p <;> rfl

@[simp]
theorem storeProgress_connect_timeout (m : Mgr) (n : String) (p : ConnectProgress) :
    (storeProgress m n p).connect_timeout = m.connect_timeout := by cases p <;> rfl

@[simp]
theorem storeProgress_read_timeout (m : Mgr) (n : String) (p : ConnectProgress) :
    (storeProgress m n p).read_timeout = m.read_timeout := by cases p <;> rfl

@[simp]
theorem markConnected_sessions (m : Mgr) : (markConnected m).sessions = m.sessions := by
  unfold markConnected; split <;> rfl

@[simp]
theorem markConnected_tools_cache (m : Mgr) : (markConnected m).tools_cache = m.tools_cache := by
  unfold markConnected; split <;> rfl

@[simp]
theorem markConnected_config (m : Mgr) : (markConnected m).config = m.config := by
  unfold markConnected; split <;> rfl

@[simp]
theorem markConnected_connect_timeout (m : Mgr) :
    (markConnected m).connect_timeout = m.connect_timeout := by
  unfold markConnected; split <;> rfl

@[simp]
theorem markConnected_read_timeout (m : Mgr) :
    (markConnected m).read_timeout = m.read_timeout := by
  unfold markConnected; split <;> rfl

theorem stateIdx_le_markConnected (m : Mgr) :
    stateIdx m.state ≤ stateIdx (markConnected m).state := by
  unfold markConnected
  split
  · next h => rw [h]; simp [stateIdx]
  · exact le_refl _

theorem markConnected_state_of_ge (m : Mgr) (h : 1 ≤ stateIdx m.state) :
    (markConnected m).state = .CONNECTED := by
  unfold markConnected
  cases hs : m.state
  · rw [hs] at h; simp [stateIdx] at h
  · simp [hs]
  · simp [hs]

/-- `connectToServer` never touches the tool cache. -/
theorem connectToServer_tools_cache (m : Mgr) (name : String) (cfg : ServerConfig)
    (oc : ConnectOutcome) :
    (connectToServer m name cfg oc).mgr.tools_cache = m.tools_cache := by
  unfold connectToServer connectStdio connectSse
  cases hl : lookupKey m.sessions name <;>
    by_cases h1 : cfg.type = "stdio" <;>
    by_cases h2 : cfg.type = "sse" <;>
    cases hc : cfg.command <;>
    cases hu : cfg.url <;>
    cases oc <;>
    simp [h1, h2, hc, hu, cleanupServer]

/-- `connectToServer` never touches the loaded config. -/
theorem connectToServer_config (m : Mgr) (name : String) (cfg : ServerConfig)
    (oc : ConnectOutcome) :
    (connectToServer m name cfg oc).mgr.config = m.config := by
  unfold connectToServer connectStdio connectSse
  cases hl : lookupKey m.sessions name <;>
    by_cases h1 : cfg.type = "stdio" <;>
    by_cases h2 : cfg.type = "sse" <;>
    cases hc : cfg.command <;>
    cases hu : cfg.url <;>
    cases oc <;>
    simp [h1, h2, hc, hu, cleanupServer]

/-- `connectToServer` never lowers the lifecycle state. -/
theorem stateIdx_le_connectToServer (m : Mgr) (name : String) (cfg : ServerConfig)
    (oc : ConnectOutcome) :
    stateIdx m.state ≤ stateIdx (connectToServer m name cfg oc).mgr.state := by
  unfold connectToServer connectStdio connectSse
  cases hl : lookupKey m.sessions name <;>
    by_cases h1 : cfg.type = "stdio" <;>
    by_cases h2 : cfg.type = "sse" <;>
    cases hc : cfg.command <;>
    cases hu : cfg.url <;>
    cases oc <;>
    simp [h1, h2, hc, hu, cleanupServer] <;>
    first
      | exact le_refl _
      | exact le_trans (by simp) (stateIdx_le_markConnected _)

/-- On a failed establishment attempt, `_connect_to_server` leaves the
lifecycle state and the session map exactly as they were (the rollback
removes only this server's partial resources, and this server had no
session — otherwise the attempt would have returned it). -/
theorem connectToServer_error (m : Mgr) (name : String) (cfg : ServerConfig)
    (oc : ConnectOutcome) (e : PyExc)
    (h : (connectToServer m name cfg oc).result = .error e) :
    (connectToServer m name cfg oc).mgr.state = m.state ∧
    (connectToServer m name cfg oc).mgr.sessions = m.sessions := by
  unfold connectToServer connectStdio connectSse at h ⊢
  revert h
  cases hl : lookupKey m.sessions name
  · have he : eraseKey m.sessions name = m.sessions :=
      eraseKey_of_lookup_none m.sessions name hl
    by_cases h1 : cfg.type = "stdio" <;>
      by_cases h2 : cfg.type = "sse" <;>
      cases hc : cfg.command <;>
      cases hu : cfg.url <;>
      cases oc <;>
      simp [h1, h2, hc, hu, cleanupServer, he]
  · simp

/-- After a successful `_connect_to_server`, the server's session is in the
session map. -/
theorem connectToServer_ok_lookup (m : Mgr) (name : String) (cfg : ServerConfig)
    (oc : ConnectOutcome) (sid : Nat)
    (h : (connectToServer m name cfg oc).result = .ok sid) :
    lookupKey (connectToServer m name cfg oc).mgr.sessions name = some sid := by
  unfold connectToServer connectStdio connectSse at h ⊢
  revert h
  cases hl : lookupKey m.sessions name
  · by_cases h1 : cfg.type = "stdio" <;>
      by_cases h2 : cfg.type = "sse" <;>
      cases hc : cfg.command <;>
      cases hu : cfg.url <;>
      cases oc <;>
      simp [h1, h2, hc, hu, lookupKey_setKey_self]
  · simp [hl]

/-- `_connect_to_server` preserves the spec §3 connection invariant for a
manager that has at least been initialized: a successful fresh connect
marks CONNECTED with a nonempty session map, a reuse changes nothing, and
a failed attempt rolls back only resources this server never shared. -/
theorem connectToServer_connInv (m : Mgr) (name : String) (cfg : ServerConfig)
    (oc : ConnectOutcome) (hs : 1 ≤ stateIdx m.state) (hinv : connInv m) :
    connInv (connectToServer m name cfg oc).mgr := by
  unfold connInv at hinv ⊢
  unfold connectToServer connectStdio connectSse
  cases hl : lookupKey m.sessions name
  · have he : eraseKey m.sessions name = m.sessions :=
      eraseKey_of_lookup_none m.sessions name hl
    by_cases h1 : cfg.type = "stdio" <;>
      by_cases h2 : cfg.type = "sse" <;>
      cases hc : cfg.command <;>
      cases hu : cfg.url <;>
      cases oc <;>
      simp [h1, h2, hc, hu, cleanupServer, he] <;>
      first
        | (rw [markConnected_state_of_ge _ (by simpa using hs)]
           simp [setKey])
        | simpa using hinv
  · simpa using hinv

/- ## Lifecycle lemmas for whole operations -/

theorem validate_none_ge (m : Mgr) (minimum : ConnectionState) (op : String)
    (h : validateStateAtLeast m minimum op = none) : stateIdx minimum ≤ stateIdx m.state := by
  unfold validateStateAtLeast at h
  split at h
  · simp at h
  · next hlt => exact not_lt.mp hlt

/-- `call_tool` preserves the spec §3 connection invariant. -/
theorem call_tool_connInv (m : Mgr) (s t : String) (co : ConnectOutcome) (ro : CallOutcome)
    (hinv : connInv m) : connInv (m.call_tool s t co ro).mgr := by
  unfold Mgr.call_tool
  split
  next e hv => simpa using hinv
  next hv =>
  have hs : 1 ≤ stateIdx m.state := validate_none_ge m _ _ hv
  split
  next hcfg => simpa using hinv
  next cfg hcfg =>
  split
  next hget => simpa using hinv
  next sc hget =>
  split
  next hd => simpa using hinv
  next hd =>
  have hc := connectToServer_connInv m s sc co hs hinv
  cases hcr : (connectToServer m s sc co).result <;> cases ro <;> simpa [hcr] using hc

/-- `call_tool` never lowers the lifecycle state. -/
theorem stateIdx_le_call_tool (m : Mgr) (s t : String) (co : ConnectOutcome) (ro : CallOutcome) :
    stateIdx m.state ≤ stateIdx (m.call_tool s t co ro).mgr.state := by
  unfold Mgr.call_tool
  split
  next e hv => simp
  next hv =>
  split
  next hcfg => simp
  next cfg hcfg =>
  split
  next hget => simp
  next sc hget =>
  split
  next hd => simp
  next hd =>
  have hc := stateIdx_le_connectToServer m s sc co
  cases hcr : (connectToServer m s sc co).result <;> cases ro <;> simpa [hcr] using hc

/-- `list_tools` preserves the spec §3 connection invariant (the cache
write touches neither the state nor the session map). -/
theorem list_tools_connInv (m : Mgr) (s : String) (co : ConnectOutcome) (lo : ListOutcome)
    (hinv : connInv m) : connInv (m.list_tools s co lo).mgr := by
  unfold Mgr.list_tools
  split
  next e hv => simpa using hinv
  next hv =>
  have hs : 1 ≤ stateIdx m.state := validate_none_ge m _ _ hv
  split
  next ts hca => simpa using hinv
  next hca =>
  split
  next hcfg => simpa using hinv
  next cfg hcfg =>
  split
  next hget => simpa using hinv
  next sc hget =>
  have hc := connectToServer_connInv m s sc co hs hinv
  unfold connInv at hc ⊢
  cases hcr : (connectToServer m s sc co).result <;> cases lo <;> simpa [hcr] using hc

/-- `list_tools` never lowers the lifecycle state. -/
theorem stateIdx_le_list_tools (m : Mgr) (s : String) (co : ConnectOutcome) (lo : ListOutcome) :
    stateIdx m.state ≤ stateIdx (m.list_tools s co lo).mgr.state := by
  unfold Mgr.list_tools
  split
  next e hv => simp
  next hv =>
  split
  next ts hca => simp
  next hca =>
  split
  next hcfg => simp
  next cfg hcfg =>
  split
  next hget => simp
  next sc hget =>
  have hc := stateIdx_le_connectToServer m s sc co
  cases hcr : (connectToServer m s sc co).result <;> cases lo <;> simpa [hcr] using hc

/-- One step preserves the connection invariant provided `initialize` is
not invoked while sessions are open. -/
theorem step_connInv (m : Mgr) (op : MOp) (hinv : connInv m)
    (hinit : op.isInitOp = true → m.sessions = []) : connInv (m.step op) := by
  cases op
  case initOp io =>
    have hse : m.sessions = [] := hinit rfl
    cases io
    case loaded c => simp [Mgr.step, Mgr.initManager, markInit, connInv, hse]
    case notFound =>
      cases hcfg : m.config
      case none => simpa [Mgr.step, Mgr.initManager, hcfg] using hinv
      case some c => simp [Mgr.step, Mgr.initManager, hcfg, markInit, connInv, hse]
  case callToolOp s t co ro => exact call_tool_connInv m s t co ro hinv
  case listToolsOp s co lo => exact list_tools_connInv m s co lo hinv
  case cleanupOp => simp [Mgr.step, cleanupState, markUninit, connInv]

/-- One non-cleanup step never lowers the lifecycle state, provided
`initialize` is not invoked while sessions are open. -/
theorem stateIdx_le_step (m : Mgr) (op : MOp) (hinv : connInv m)
    (hinit : op.isInitOp = true → m.sessions = []) (hncl : op ≠ .cleanupOp) :
    stateIdx m.state ≤ stateIdx (m.step op).state := by
  cases op
  case initOp io =>
    have hse : m.sessions = [] := hinit rfl
    have hst : m.state ≠ ConnectionState.CONNECTED := fun h => (hinv.mp h) hse
    have hle : stateIdx m.state ≤ 1 := by
      cases hms : m.state
      · simp [stateIdx]
      · simp [stateIdx]
      · exact absurd hms hst
    cases io
    case loaded c => simpa [Mgr.step, Mgr.initManager, markInit, stateIdx] using hle
    case notFound =>
      cases hcfg : m.config
      case none => simp [Mgr.step, Mgr.initManager, hcfg]
      case some c => simpa [Mgr.step, Mgr.initManager, hcfg, markInit, stateIdx] using hle
  case callToolOp s t co ro => exact stateIdx_le_call_tool m s t co ro
  case listToolsOp s co lo => exact stateIdx_le_list_tools m s co lo
  case cleanupOp => exact absurd rfl hncl

/-- The connection invariant is preserved along any operation sequence that
never re-runs `initialize` while sessions are open. -/
theorem runOps_connInv (m : Mgr) (ops : List MOp) (hinv : connInv m)
    (hno : noReinitOpen m ops) : connInv (m.runOps ops) := by
  induction ops generalizing m with
  | nil => simpa [Mgr.runOps] using hinv
  | cons op ops ih =>
      obtain ⟨h1, h2⟩ := hno
      exact ih (m.step op) (step_connInv m op hinv h1) h2

/- ## Discovery lemmas and claim C1 -/

@[simp]
theorem discover_one_fst (n : String) (cfg : MCPServerConfig) (oc : TaskOutcome) (dt : Nat) :
    (discover_one n cfg oc dt).1 = n := by
  cases oc <;> rfl

/-- Changing one server's task outcome cannot change any other configured
server's entry in the discovery mapping. -/
theorem discover_isolation (cfgs : List (String × MCPServerConfig))
    (o o2 : String → TaskOutcome) (dt : Nat) (n0 n : String)
    (hagree : ∀ k, k ≠ n0 → o k = o2 k) (hn : n ≠ n0) :
    lookupKey (discover_all_servers cfgs o dt) n =
      lookupKey (discover_all_servers cfgs o2 dt) n := by
  induction cfgs with
  | nil => rfl
  | cons p t ih =>
      by_cases hp : p.1 = n
      · have ho : o n = o2 n := by
          rw [← hp]
          exact hagree p.1 (by rw [hp]; exact hn)
        simp [discover_all_servers, hp, ho]
      · simpa [discover_all_servers, hp] using ih

/-- C1: bulk discovery returns exactly one outcome per configured server
name; each configured server's outcome is computed from its own discovery
task alone; a task that times out or throws contributes an error record
naming that server only; and changing one server's outcome leaves every
other server's entry unchanged. -/
theorem c1_discovery_outcomes (cfgs : List (String × MCPServerConfig))
    (o o2 : String → TaskOutcome) (dt : Nat) (n n0 : String) (cfg : MCPServerConfig)
    (hmem : (n, cfg) ∈ cfgs) (hagree : ∀ k, k ≠ n0 → o k = o2 k) (hn : n ≠ n0) :
    (discover_all_servers cfgs o dt).map Prod.fst = cfgs.map Prod.fst
    ∧ discover_one n cfg (o n) dt ∈ discover_all_servers cfgs o dt
    ∧ (o n = .timesOut →
        (discover_one n cfg (o n) dt).2.name = n
        ∧ (discover_one n cfg (o n) dt).2.error = some s!"Discovery timed out after {dt}s"
        ∧ (discover_one n cfg (o n) dt).2.tools = [])
    ∧ (∀ msg, o n = .raises msg →
        (discover_one n cfg (o n) dt).2.name = n
        ∧ (discover_one n cfg (o n) dt).2.error = some s!"Discovery failed: {msg}"
        ∧ (discover_one n cfg (o n) dt).2.tools = [])
    ∧ (∀ io, o n = .completes io →
        (discover_one n cfg (o n) dt).2 = discover_tools cfg io)
    ∧ lookupKey (discover_all_servers cfgs o dt) n =
        lookupKey (discover_all_servers cfgs o2 dt) n := by
  refine ⟨?_, ?_, ?_, ?_, ?_, discover_isolation cfgs o o2 dt n0 n hagree hn⟩
  · unfold discover_all_servers
    rw [List.map_map]
    exact List.map_congr_left (fun p _ => discover_one_fst p.1 p.2 (o p.1) dt)
  · exact List.mem_map_of_mem (fun p => discover_one p.1 p.2 (o p.1) dt) hmem
  · intro h
    rw [h]
    exact ⟨rfl, rfl, rfl⟩
  · intro msg h
    rw [h]
    exact ⟨rfl, rfl, rfl⟩
  · intro io h
    rw [h]
    rfl

/-- Witness for C1 on a two-server configuration whose second server times
out: the mapping has both names, the healthy server's record is a success
record, the timed-out server's record is an error record for itself, and
replacing the timed-out server's outcome by a crash leaves the healthy
server's entry unchanged. -/
theorem c1_discovery_outcomes_witness :
    (discover_all_servers
        [("alpha", ⟨"alpha", "uvx", [], [], "stdio"⟩), ("beta", ⟨"beta", "uvx", [], [], "stdio"⟩)]
        (fun k => if k = "beta" then TaskOutcome.timesOut
                  else TaskOutcome.completes (.ok ["t1"] [] [])) 30).map Prod.fst
      = ["alpha", "beta"]
    ∧ discover_one "alpha" ⟨"alpha", "uvx", [], [], "stdio"⟩
        ((fun k => if k = "beta" then TaskOutcome.timesOut
                   else TaskOutcome.completes (.ok ["t1"] [] [])) "alpha") 30
      ∈ discover_all_servers
          [("alpha", ⟨"alpha", "uvx", [], [], "stdio"⟩), ("beta", ⟨"beta", "uvx", [], [], "stdio"⟩)]
          (fun k => if k = "beta" then TaskOutcome.timesOut
                    else TaskOutcome.completes (.ok ["t1"] [] [])) 30
    ∧ lookupKey
        (discover_all_servers
          [("alpha", ⟨"alpha", "uvx", [], [], "stdio"⟩), ("beta", ⟨"beta", "uvx", [], [], "stdio"⟩)]
          (fun k => if k = "beta" then TaskOutcome.timesOut
                    else TaskOutcome.completes (.ok ["t1"] [] [])) 30) "alpha"
      = lookupKey
          (discover_all_servers
            [("alpha", ⟨"alpha", "uvx", [], [], "stdio"⟩), ("beta", ⟨"beta", "uvx", [], [], "stdio"⟩)]
            (fun k => if k = "beta" then TaskOutcome.raises "crash"
                      else TaskOutcome.completes (.ok ["t1"] [] [])) 30) "alpha" := by
  have h := c1_discovery_outcomes
    [("alpha", ⟨"alpha", "uvx", [], [], "stdio"⟩), ("beta", ⟨"beta", "uvx", [], [], "stdio"⟩)]
    (fun k => if k = "beta" then TaskOutcome.timesOut
              else TaskOutcome.completes (.ok ["t1"] [] []))
    (fun k => if k = "beta" then TaskOutcome.raises "crash"
              else TaskOutcome.completes (.ok ["t1"] [] []))
    30 "alpha" "beta" ⟨"alpha", "uvx", [], [], "stdio"⟩
    (by simp) (fun k hk => by simp [hk]) (by simp)
  exact ⟨h.1, h.2.1, h.2.2.2.2.2⟩

/- ## Claim C6 -/

/-- C6: `cleanup()` always returns successfully with the manager reset to
UNINITIALIZED and the session map and tool cache empty, whatever set of
individual session or transport close operations fail (the resulting state
is the same for every close-failure oracle — failures are only logged);
and a second `cleanup()` on the already-clean manager is a no-op that does
not raise and logs nothing. -/
theorem c6_cleanup_reset (m : Mgr) (f g f2 g2 : String → Option PyExc) :
    (m.cleanup f g).result = .ok ()
    ∧ (m.cleanup f g).mgr.state = .UNINITIALIZED
    ∧ (m.cleanup f g).mgr.sessions = []
    ∧ (m.cleanup f g).mgr.tools_cache = []
    ∧ (m.cleanup f g).mgr.session_contexts = []
    ∧ (m.cleanup f g).mgr.stdio_contexts = []
    ∧ (m.cleanup f g).mgr = (m.cleanup f2 g2).mgr
    ∧ ((m.cleanup f g).mgr.cleanup f2 g2).result = .ok ()
    ∧ ((m.cleanup f g).mgr.cleanup f2 g2).mgr = (m.cleanup f g).mgr
    ∧ ((m.cleanup f g).mgr.cleanup f2 g2).logged = [] := by
  simp [Mgr.cleanup, cleanupState, markUninit]

/- ## Claim C3 -/

/-- C3: when a session-establishment attempt for a server with a
well-formed stdio or sse configuration hits the connect-timeout at any
progress point, a timeout error naming the server and the configured
duration is raised, no entry for that server remains in the session map or
in any transport/session/stream registry, and every other server's session
and registry entries are untouched (as are the lifecycle state, the tool
cache and the config). -/
theorem c3_connect_timeout_rollback (m : Mgr) (name : String) (cfg : ServerConfig)
    (p : ConnectProgress) (t : Nat)
    (hns : lookupKey m.sessions name = none)
    (htr : (cfg.type = "stdio" ∧ cfg.command ≠ none) ∨ (cfg.type = "sse" ∧ cfg.url ≠ none))
    (ht : t = m.connect_timeout) :
    (connectToServer m name cfg (.timeoutAt p)).result =
        .error (.timeoutError s!"Connection to {name} timed out after {t}s")
    ∧ lookupKey (connectToServer m name cfg (.timeoutAt p)).mgr.sessions name = none
    ∧ name ∉ (connectToServer m name cfg (.timeoutAt p)).mgr.stdio_contexts
    ∧ name ∉ (connectToServer m name cfg (.timeoutAt p)).mgr.session_contexts
    ∧ name ∉ (connectToServer m name cfg (.timeoutAt p)).mgr.read_streams
    ∧ name ∉ (connectToServer m name cfg (.timeoutAt p)).mgr.write_streams
    ∧ (∀ k, k ≠ name →
        lookupKey (connectToServer m name cfg (.timeoutAt p)).mgr.sessions k =
          lookupKey m.sessions k)
    ∧ (∀ k, k ≠ name →
        ((k ∈ (connectToServer m name cfg (.timeoutAt p)).mgr.stdio_contexts ↔
            k ∈ m.stdio_contexts)
         ∧ (k ∈ (connectToServer m name cfg (.timeoutAt p)).mgr.session_contexts ↔
            k ∈ m.session_contexts)
         ∧ (k ∈ (connectToServer m name cfg (.timeoutAt p)).mgr.read_streams ↔
            k ∈ m.read_streams)
         ∧ (k ∈ (connectToServer m name cfg (.timeoutAt p)).mgr.write_streams ↔
            k ∈ m.write_streams)))
    ∧ (connectToServer m name cfg (.timeoutAt p)).mgr.state = m.state
    ∧ (connectToServer m name cfg (.timeoutAt p)).mgr.tools_cache = m.tools_cache
    ∧ (connectToServer m name cfg (.timeoutAt p)).mgr.config = m.config := by
  subst ht
  have hred :
      connectToServer m name cfg (.timeoutAt p) =
        ⟨.error (.timeoutError
            s!"Connection to {name} timed out after {m.connect_timeout}s"),
         cleanupServer (storeProgress m name p) name, true⟩ := by
    rcases htr with ⟨h1, h2⟩ | ⟨h1, h2⟩
    · obtain ⟨c, hc⟩ := Option.ne_none_iff_exists'.mp h2
      unfold connectToServer connectStdio
      simp [hns, h1, hc]
    · obtain ⟨u, hu⟩ := Option.ne_none_iff_exists'.mp h2
      unfold connectToServer connectSse
      simp [hns, h1, hu]
  rw [hred]
  refine ⟨rfl, ?_, ?_, ?_, ?_, ?_, ?_, ?_, ?_, ?_, ?_⟩
  · simp [cleanupServer, lookupKey_eraseKey_self]
  · cases p <;> simp [cleanupServer, storeProgress]
  · cases p <;> simp [cleanupServer, storeProgress]
  · cases p <;> simp [cleanupServer, storeProgress]
  · cases p <;> simp [cleanupServer, storeProgress]
  · intro k hk
    simp [cleanupServer, lookupKey_eraseKey_ne m.sessions name k hk]
  · intro k hk
    cases p <;>
      simp [cleanupServer, storeProgress, mem_addName_iff, hk]
  · cases p <;> rfl
  · cases p <;> rfl
  · cases p <;> rfl

/-- Witness for C3: a concrete manager with an open session for another
server `other` and a timeout while connecting `fresh` after the transport
was opened — the timeout error names `fresh` and the 10-tick duration,
`fresh` is rolled back everywhere, and `other` keeps its session. -/
theorem c3_connect_timeout_rollback_witness :
    (connectToServer
        ⟨.CONNECTED, some ⟨[("fresh", ⟨"stdio", some "cmd", [], [], none, false⟩)]⟩,
         [("other", 1)], [], ["other"], ["other"], ["other"], ["other"], 10, 60⟩
        "fresh" ⟨"stdio", some "cmd", [], [], none, false⟩
        (.timeoutAt .afterTransport)).result =
      .error (.timeoutError "Connection to fresh timed out after 10s")
    ∧ lookupKey (connectToServer
        ⟨.CONNECTED, some ⟨[("fresh", ⟨"stdio", some "cmd", [], [], none, false⟩)]⟩,
         [("other", 1)], [], ["other"], ["other"], ["other"], ["other"], 10, 60⟩
        "fresh" ⟨"stdio", some "cmd", [], [], none, false⟩
        (.timeoutAt .afterTransport)).mgr.sessions "fresh" = none
    ∧ lookupKey (connectToServer
        ⟨.CONNECTED, some ⟨[("fresh", ⟨"stdio", some "cmd", [], [], none, false⟩)]⟩,
         [("other", 1)], [], ["other"], ["other"], ["other"], ["other"], 10, 60⟩
        "fresh" ⟨"stdio", some "cmd", [], [], none, false⟩
        (.timeoutAt .afterTransport)).mgr.sessions "other" = lookupKey [("other", 1)] "other" := by
  have h := c3_connect_timeout_rollback
    ⟨.CONNECTED, some ⟨[("fresh", ⟨"stdio", some "cmd", [], [], none, false⟩)]⟩,
     [("other", 1)], [], ["other"], ["other"], ["other"], ["other"], 10, 60⟩
    "fresh" ⟨"stdio", some "cmd", [], [], none, false⟩ .afterTransport 10
    (by decide) (Or.inl ⟨rfl, by decide⟩) rfl
  exact ⟨h.1, h.2.1, h.2.2.2.2.2.2.1 "other" (by decide)⟩

/- ## Resolver lemmas and claim C9 -/

theorem whichList_append (fs : FS) (cmd : String) (l1 l2 : List String) :
    whichList fs cmd (l1 ++ l2) =
      match whichList fs cmd l1 with
      | some r => some r
      | none => whichList fs cmd l2 := by
  induction l1 with
  | nil => rfl
  | cons d t ih =>
      by_cases hd : fs.isExec (d ++ "/" ++ cmd)
      · simp [whichList, hd]
      · simp [whichList, hd]
        simpa [whichList] using ih

theorem whichList_none_of (fs : FS) (cmd : String) (dirs : List String)
    (h : ∀ d ∈ dirs, fs.isExec (d ++ "/" ++ cmd) = false) :
    whichList fs cmd dirs = none := by
  induction dirs with
  | nil => rfl
  | cons d t ih =>
      have hd := h d (by simp)
      simp [whichList, hd]
      simpa [whichList] using ih (fun x hx => h x (by simp [hx]))

theorem whichList_some_spec (fs : FS) (cmd : String) (dirs : List String) (r : String)
    (h : whichList fs cmd dirs = some r) :
    ∃ d ∈ dirs, fs.isExec (d ++ "/" ++ cmd) = true ∧ r = d ++ "/" ++ cmd := by
  induction dirs with
  | nil => simp [whichList] at h
  | cons d t ih =>
      by_cases hd : fs.isExec (d ++ "/" ++ cmd)
      · simp [whichList, hd] at h
        exact ⟨d, by simp, hd, h.symm⟩
      · simp [whichList, hd] at h
        obtain ⟨d2, hd2, hx, hr⟩ := ih (by simpa [whichList] using h)
        exact ⟨d2, by simp [hd2], hx, hr⟩

theorem whichList_isSome_of (fs : FS) (cmd : String) (dirs : List String)
    (h : ∃ d ∈ dirs, fs.isExec (d ++ "/" ++ cmd) = true) :
    (whichList fs cmd dirs).isSome := by
  obtain ⟨d, hd, hx⟩ := h
  induction dirs with
  | nil => simp at hd
  | cons d0 t ih =>
      by_cases h0 : fs.isExec (d0 ++ "/" ++ cmd)
      · simp [whichList, h0]
      · rcases List.mem_cons.mp hd with h1 | h1
        · rw [h1] at hx
          exact absurd hx (by simpa using h0)
        · simpa [whichList, h0] using ih h1

/-- C9: on a Unix-like platform, when a command is not resolvable through
the environment's PATH and is not present in the seven fixed search roots,
but is an executable in the `bin` directory of some installed runtime
version under the nvm root, `_resolve_command` returns the absolute path of
that executable under the version-manager directory, and the returned
environment's PATH variable contains that `bin` directory. -/
theorem c9_resolve_version_manager (fs : FS) (cmd : String) (env : PEnv)
    (hplat : fs.win32 = false)
    (hpath : whichList fs cmd
        (match env.path with
         | some p => p
         | none => fs.osPATH) = none)
    (hstatic : ∀ d ∈ unixStaticPaths fs, fs.isExec (d ++ "/" ++ cmd) = false)
    (hfound : ∃ b ∈ nvmBinPaths fs, fs.isExec (b ++ "/" ++ cmd) = true) :
    ∃ b ∈ nvmBinPaths fs,
      fs.isExec (b ++ "/" ++ cmd) = true
      ∧ (resolve_command fs cmd env).1 = b ++ "/" ++ cmd
      ∧ ∃ entries, (resolve_command fs cmd env).2.path = some entries ∧ b ∈ entries := by
  have hw1 : whichList fs cmd (unixCommonPaths fs) = whichList fs cmd (nvmBinPaths fs) := by
    rw [unixCommonPaths, whichList_append, whichList_none_of fs cmd _ hstatic]
  have hsome : (whichList fs cmd (nvmBinPaths fs)).isSome :=
    whichList_isSome_of fs cmd _ hfound
  obtain ⟨r, hr⟩ := Option.isSome_iff_exists.mp hsome
  obtain ⟨b, hb, hx, hre⟩ := whichList_some_spec fs cmd _ r hr
  have hres : resolve_command fs cmd env =
      (r, ⟨some (if (match env.path with
                     | some p => p
                     | none => []) ≠ []
                 then unixCommonPaths fs ++
                      (match env.path with
                       | some p => p
                       | none => [])
                 else unixCommonPaths fs)⟩) := by
    unfold resolve_command
    simp only [hpath, hplat, Bool.false_eq_true, if_false, hw1, hr]
  refine ⟨b, hb, hx, ?_, ?_⟩
  · rw [hres, hre]
  · rw [hres]
    have hmem : b ∈ unixCommonPaths fs := by
      rw [unixCommonPaths]
      exact List.mem_append_right _ hb
    by_cases hcur : (match env.path with
                     | some p => p
                     | none => []) ≠ []
    · refine ⟨unixCommonPaths fs ++
          (match env.path with
           | some p => p
           | none => []), ?_, List.mem_append_left _ hmem⟩
      simp [hcur]
    · refine ⟨unixCommonPaths fs, ?_, hmem⟩
      simp [hcur]

/-- Witness for C9: a command `tool` that exists only in
`/home/u/.nvm/versions/node/v20/bin` is resolved to that absolute path, and
the directory appears in the returned PATH entries. -/
theorem c9_resolve_version_manager_witness :
    ∃ b ∈ nvmBinPaths
        ⟨"/home/u", ["/usr/bin"], true, ["v20"],
         fun d => d = "/home/u/.nvm/versions/node/v20",
         fun f => f = "/home/u/.nvm/versions/node/v20/bin/tool",
         false, none, none⟩,
      (⟨"/home/u", ["/usr/bin"], true, ["v20"],
        fun d => d = "/home/u/.nvm/versions/node/v20",
        fun f => f = "/home/u/.nvm/versions/node/v20/bin/tool",
        false, none, none⟩ : FS).isExec (b ++ "/" ++ "tool") = true
      ∧ (resolve_command
          ⟨"/home/u", ["/usr/bin"], true, ["v20"],
           fun d => d = "/home/u/.nvm/versions/node/v20",
           fun f => f = "/home/u/.nvm/versions/node/v20/bin/tool",
           false, none, none⟩ "tool" ⟨some ["/usr/bin"]⟩).1 = b ++ "/" ++ "tool"
      ∧ ∃ entries,
          (resolve_command
            ⟨"/home/u", ["/usr/bin"], true, ["v20"],
             fun d => d = "/home/u/.nvm/versions/node/v20",
             fun f => f = "/home/u/.nvm/versions/node/v20/bin/tool",
             false, none, none⟩ "tool" ⟨some ["/usr/bin"]⟩).2.path = some entries
          ∧ b ∈ entries := by
  exact c9_resolve_version_manager
    ⟨"/home/u", ["/usr/bin"], true, ["v20"],
     fun d => d = "/home/u/.nvm/versions/node/v20",
     fun f => f = "/home/u/.nvm/versions/node/v20/bin/tool",
     false, none, none⟩ "tool" ⟨some ["/usr/bin"]⟩
    rfl (by decide) (by decide)
    ⟨"/home/u/.nvm/versions/node/v20/bin", by decide, by decide⟩

/- ## Claims C5 and C8 -/

theorem validate_none_of_ge (m : Mgr) (op : String) (h : 1 ≤ stateIdx m.state) :
    validateStateAtLeast m .INITIALIZED op = none := by
  unfold validateStateAtLeast
  have hn : ¬ stateIdx m.state < stateIdx ConnectionState.INITIALIZED := not_lt.mpr h
  simp [hn]

/-- C5: for a configured server with no existing session, the serialized
critical section of `_ensure_connected` (two concurrent callers execute it
one after the other under the per-server lock) performs exactly one
connection attempt: the first execution connects and stores the session,
the second re-checks inside the lock, attempts nothing, and returns the
same session; the client state is unchanged by the second execution. -/
theorem c5_single_connection (c : CClient) (server : String) (sid : Nat)
    (oc2 : CConnectOutcome) (cfg : MCPServerConfig)
    (hmiss : lookupKey c.sessions server = none)
    (hcfg : lookupKey c.configs server = some cfg) :
    (c.ensure_connected server (.ok sid)).result = .ok sid
    ∧ (c.ensure_connected server (.ok sid)).attempted = true
    ∧ ((c.ensure_connected server (.ok sid)).client.ensure_connected server oc2).result = .ok sid
    ∧ ((c.ensure_connected server (.ok sid)).client.ensure_connected server oc2).attempted = false
    ∧ ((c.ensure_connected server (.ok sid)).client.ensure_connected server oc2).client =
        (c.ensure_connected server (.ok sid)).client := by
  by_cases hl : server ∈ c.connection_locks <;>
    simp [CClient.ensure_connected, hl, hmiss, hcfg, addName, lookupKey_setKey_self]

/-- Witness for C5: a concrete one-server client; the first execution
connects with session 5, the second execution (even though its oracle
would hand out session 9) attempts nothing and returns session 5. -/
theorem c5_single_connection_witness :
    ((⟨[("s", ⟨"s", "cmd", [], [], "stdio"⟩)], [], [], []⟩ : CClient).ensure_connected
        "s" (.ok 5)).result = .ok 5
    ∧ ((⟨[("s", ⟨"s", "cmd", [], [], "stdio"⟩)], [], [], []⟩ : CClient).ensure_connected
        "s" (.ok 5)).attempted = true
    ∧ (((⟨[("s", ⟨"s", "cmd", [], [], "stdio"⟩)], [], [], []⟩ : CClient).ensure_connected
        "s" (.ok 5)).client.ensure_connected "s" (.ok 9)).result = .ok 5
    ∧ (((⟨[("s", ⟨"s", "cmd", [], [], "stdio"⟩)], [], [], []⟩ : CClient).ensure_connected
        "s" (.ok 5)).client.ensure_connected "s" (.ok 9)).attempted = false
    ∧ (((⟨[("s", ⟨"s", "cmd", [], [], "stdio"⟩)], [], [], []⟩ : CClient).ensure_connected
        "s" (.ok 5)).client.ensure_connected "s" (.ok 9)).client =
        ((⟨[("s", ⟨"s", "cmd", [], [], "stdio"⟩)], [], [], []⟩ : CClient).ensure_connected
          "s" (.ok 5)).client := by
  exact c5_single_connection ⟨[("s", ⟨"s", "cmd", [], [], "stdio"⟩)], [], [], []⟩
    "s" 5 (.ok 9) ⟨"s", "cmd", [], [], "stdio"⟩ (by decide) (by decide)

/-- C8 counterexample: on a manager with an open session, an underlying
tool-call failure other than a read timeout (here an SDK exception with
message `boom`) propagates out of `McpClientManager.call_tool` unchanged —
the raised error is the raw exception, which does not have the shape of a
domain error naming the server and the tool with the original as cause. -/
theorem c8_counterexample :
    ((⟨.CONNECTED, some ⟨[("srv", ⟨"stdio", some "cmd", [], [], none, false⟩)]⟩,
        [("srv", 1)], [], ["srv"], ["srv"], ["srv"], ["srv"], 10, 60⟩ : Mgr).call_tool
        "srv" "fmt" (.success 2) (.fail (.other "boom"))).result = .error (.other "boom")
    ∧ wrapsFailure "srv" "fmt" (.other "boom") = false := by
  exact ⟨by decide, rfl⟩

/-- C8 as amended: `CoordinatorClient.call_tool` wraps every underlying
tool-call failure into a single domain error naming both the server and
the tool and carrying the original failure as its cause;
`McpClientManager.call_tool`, by contrast, wraps only read timeouts and
re-raises any other underlying failure unchanged. -/
theorem c8_wrap_split (m : Mgr) (c : CClient) (server tool : String)
    (mco : ConnectOutcome) (cco : CConnectOutcome) (e e2 : PyExc)
    (cfg : McpConfig) (sc : ServerConfig) (sid sid2 : Nat)
    (hst : 1 ≤ stateIdx m.state) (hcfg : m.config = some cfg)
    (hget : cfg.get_server server = some sc) (hd : sc.disabled = false)
    (hconn : (connectToServer m server sc mco).result = .ok sid)
    (hok : (c.ensure_connected server cco).result = .ok sid2) :
    (m.call_tool server tool mco (.fail e)).result = .error e
    ∧ (c.call_tool server tool cco (.fail e2)).result =
        .error (.runtimeErrorFrom (failMsg server tool e2.message) e2)
    ∧ ∀ e3 : PyExc, wrapsFailure server tool
        (.runtimeErrorFrom (failMsg server tool e3.message) e3) = true := by
  refine ⟨?_, ?_, ?_⟩
  · simp [Mgr.call_tool, validate_none_of_ge m _ hst, hcfg, hget, hd, hconn]
  · simp [CClient.call_tool, hok]
  · intro e3
    simp [wrapsFailure]

/-- Witness for C8 (amended): concrete manager and coordinator client, both
with a configured server `srv`; the manager re-raises the raw SDK failure,
the coordinator wraps it naming server and tool. -/
theorem c8_wrap_split_witness :
    ((⟨.CONNECTED, some ⟨[("srv", ⟨"stdio", some "cmd", [], [], none, false⟩)]⟩,
        [("srv", 1)], [], ["srv"], ["srv"], ["srv"], ["srv"], 10, 60⟩ : Mgr).call_tool
        "srv" "fmt" (.success 2) (.fail (.other "boom"))).result = .error (.other "boom")
    ∧ ((⟨[("srv", ⟨"srv", "cmd", [], [], "stdio"⟩)], [("srv", 1)], ["srv"], ["srv"]⟩ :
          CClient).call_tool "srv" "fmt" (.ok 2) (.fail (.other "boom"))).result =
        .error (.runtimeErrorFrom (failMsg "srv" "fmt" (PyExc.other "boom").message)
          (.other "boom"))
    ∧ ∀ e3 : PyExc, wrapsFailure "srv" "fmt"
        (.runtimeErrorFrom (failMsg "srv" "fmt" e3.message) e3) = true := by
  exact c8_wrap_split
    ⟨.CONNECTED, some ⟨[("srv", ⟨"stdio", some "cmd", [], [], none, false⟩)]⟩,
     [("srv", 1)], [], ["srv"], ["srv"], ["srv"], ["srv"], 10, 60⟩
    ⟨[("srv", ⟨"srv", "cmd", [], [], "stdio"⟩)], [("srv", 1)], ["srv"], ["srv"]⟩
    "srv" "fmt" (.success 2) (.ok 2) (.other "boom") (.other "boom")
    ⟨[("srv", ⟨"stdio", some "cmd", [], [], none, false⟩)]⟩
    ⟨"stdio", some "cmd", [], [], none, false⟩ 1 1
    (by decide) rfl (by decide) rfl (by decide) (by decide)

/- ## Claim C4 -/

/-- C4 counterexample: for a server whose configuration marks it disabled,
`list_tools` on a cache miss does NOT fail with the disabled error: it
makes a connection attempt, stores a session for the disabled server, and
returns the tool list — refuting the claim's `list_tools` half. -/
theorem c4_counterexample :
    ((⟨.INITIALIZED, some ⟨[("d", ⟨"stdio", some "x", [], [], none, true⟩)]⟩,
        [], [], [], [], [], [], 10, 60⟩ : Mgr).list_tools
        "d" (.success 7) (.ok [])).connectAttempted = true
    ∧ ((⟨.INITIALIZED, some ⟨[("d", ⟨"stdio", some "x", [], [], none, true⟩)]⟩,
        [], [], [], [], [], [], 10, 60⟩ : Mgr).list_tools
        "d" (.success 7) (.ok [])).result = .ok []
    ∧ ((⟨.INITIALIZED, some ⟨[("d", ⟨"stdio", some "x", [], [], none, true⟩)]⟩,
        [], [], [], [], [], [], 10, 60⟩ : Mgr).list_tools
        "d" (.success 7) (.ok [])).mgr.sessions = [("d", 7)] := by
  exact ⟨by decide, by decide, by decide⟩

/-- C4 as amended: `call_tool` on a disabled server fails with the
disabled error, makes no connection attempt and leaves the manager
unchanged; `list_tools`, however, performs no disabled check, so on a
cache miss for a disabled (stdio-configured, command-bearing) server with
no open session it does attempt a connection. -/
theorem c4_disabled_split (m : Mgr) (server tool : String) (co : ConnectOutcome)
    (ro : CallOutcome) (lo : ListOutcome) (cfg : McpConfig) (sc : ServerConfig)
    (hst : 1 ≤ stateIdx m.state) (hcfg : m.config = some cfg)
    (hget : cfg.get_server server = some sc) (hd : sc.disabled = true) :
    (m.call_tool server tool co ro).result =
        .error (.valueError ("Server " ++ server ++ " is disabled"))
    ∧ (m.call_tool server tool co ro).mgr = m
    ∧ (m.call_tool server tool co ro).connectAttempted = false
    ∧ (lookupKey m.tools_cache server = none → lookupKey m.sessions server = none →
        sc.type = "stdio" → sc.command ≠ none →
        (m.list_tools server co lo).connectAttempted = true) := by
  have hred : m.call_tool server tool co ro =
      ⟨.error (.valueError ("Server " ++ server ++ " is disabled")), m, false⟩ := by
    simp only [Mgr.call_tool, validate_none_of_ge m _ hst, hcfg, hget, hd, if_true]
    rfl
  refine ⟨by rw [hred], by rw [hred], by rw [hred], ?_⟩
  intro h1 h2 h3 h4
  obtain ⟨cmd, hcmd⟩ := Option.ne_none_iff_exists'.mp h4
  cases co <;> cases lo <;>
    simp [Mgr.list_tools, validate_none_of_ge m _ hst, h1, hcfg, hget,
          connectToServer, connectStdio, h2, h3, hcmd]

/-- Witness for C4 (amended): on a one-server configuration marking `d`
disabled, `call_tool` fails with the disabled error without touching the
manager, while `list_tools` on a cache miss attempts the connection. -/
theorem c4_disabled_split_witness :
    ((⟨.INITIALIZED, some ⟨[("d", ⟨"stdio", some "x", [], [], none, true⟩)]⟩,
        [], [], [], [], [], [], 10, 60⟩ : Mgr).call_tool
        "d" "t" (.success 7) (.ok (.withContent "r"))).result =
      .error (.valueError ("Server " ++ "d" ++ " is disabled"))
    ∧ ((⟨.INITIALIZED, some ⟨[("d", ⟨"stdio", some "x", [], [], none, true⟩)]⟩,
        [], [], [], [], [], [], 10, 60⟩ : Mgr).call_tool
        "d" "t" (.success 7) (.ok (.withContent "r"))).mgr =
      ⟨.INITIALIZED, some ⟨[("d", ⟨"stdio", some "x", [], [], none, true⟩)]⟩,
        [], [], [], [], [], [], 10, 60⟩
    ∧ ((⟨.INITIALIZED, some ⟨[("d", ⟨"stdio", some "x", [], [], none, true⟩)]⟩,
        [], [], [], [], [], [], 10, 60⟩ : Mgr).call_tool
        "d" "t" (.success 7) (.ok (.withContent "r"))).connectAttempted = false
    ∧ ((⟨.INITIALIZED, some ⟨[("d", ⟨"stdio", some "x", [], [], none, true⟩)]⟩,
        [], [], [], [], [], [], 10, 60⟩ : Mgr).list_tools
        "d" (.success 7) (.ok [])).connectAttempted = true := by
  have h := c4_disabled_split
    ⟨.INITIALIZED, some ⟨[("d", ⟨"stdio", some "x", [], [], none, true⟩)]⟩,
      [], [], [], [], [], [], 10, 60⟩
    "d" "t" (.success 7) (.ok (.withContent "r")) (.ok [])
    ⟨[("d", ⟨"stdio", some "x", [], [], none, true⟩)]⟩
    ⟨"stdio", some "x", [], [], none, true⟩
    (by decide) rfl (by decide) rfl
  exact ⟨h.1, h.2.1, h.2.2.1, h.2.2.2 (by decide) (by decide) rfl (by decide)⟩

/- ## Claim C10 -/

/-- C10: a read-timeout during `call_tool` leaves the manager's observable
state exactly as it was — the timed-out server's session stays in the
session map, the tool cache and lifecycle state are untouched (the whole
manager record is unchanged) — the raised error names tool, server and the
configured duration, and a subsequent `call_tool` to the same server makes
no new connection attempt and finds the same session. -/
theorem c10_read_timeout_frame (m : Mgr) (server tool : String) (co co2 : ConnectOutcome)
    (ro2 : CallOutcome) (sid rt : Nat) (cfg : McpConfig) (sc : ServerConfig)
    (hst : 1 ≤ stateIdx m.state) (hcfg : m.config = some cfg)
    (hget : cfg.get_server server = some sc) (hd : sc.disabled = false)
    (hsess : lookupKey m.sessions server = some sid)
    (hrt : rt = m.read_timeout) :
    (m.call_tool server tool co .timeout).result =
        .error (.timeoutError s!"Tool call {tool} on {server} timed out after {rt}s")
    ∧ (m.call_tool server tool co .timeout).mgr = m
    ∧ (m.call_tool server tool co .timeout).connectAttempted = false
    ∧ (m.call_tool server tool co2 ro2).mgr = m
    ∧ (m.call_tool server tool co2 ro2).connectAttempted = false
    ∧ lookupKey (m.call_tool server tool co2 ro2).mgr.sessions server = some sid := by
  subst hrt
  have hconn : ∀ oc : ConnectOutcome, connectToServer m server sc oc = ⟨.ok sid, m, false⟩ := by
    intro oc
    unfold connectToServer
    rw [hsess]
  have hgen : ∀ (oc : ConnectOutcome) (ro : CallOutcome),
      (m.call_tool server tool oc ro).mgr = m
      ∧ (m.call_tool server tool oc ro).connectAttempted = false := by
    intro oc ro
    cases ro <;>
      simp [Mgr.call_tool, validate_none_of_ge m _ hst, hcfg, hget, hd, hconn oc]
  refine ⟨?_, (hgen co .timeout).1, (hgen co .timeout).2,
          (hgen co2 ro2).1, (hgen co2 ro2).2, ?_⟩
  · simp [Mgr.call_tool, validate_none_of_ge m _ hst, hcfg, hget, hd, hconn co]
  · rw [(hgen co2 ro2).1]
    exact hsess

/-- Witness for C10: a concrete CONNECTED manager whose server `srv` holds
session 1; the read-timeout error names tool, server and the 60-tick
duration, the manager is unchanged, and the follow-up call reuses session 1
without connecting. -/
theorem c10_read_timeout_frame_witness :
    ((⟨.CONNECTED, some ⟨[("srv", ⟨"stdio", some "cmd", [], [], none, false⟩)]⟩,
        [("srv", 1)], [], ["srv"], ["srv"], ["srv"], ["srv"], 10, 60⟩ : Mgr).call_tool
        "srv" "fmt" (.success 2) .timeout).result =
      .error (.timeoutError "Tool call fmt on srv timed out after 60s")
    ∧ ((⟨.CONNECTED, some ⟨[("srv", ⟨"stdio", some "cmd", [], [], none, false⟩)]⟩,
        [("srv", 1)], [], ["srv"], ["srv"], ["srv"], ["srv"], 10, 60⟩ : Mgr).call_tool
        "srv" "fmt" (.success 2) .timeout).mgr =
      ⟨.CONNECTED, some ⟨[("srv", ⟨"stdio", some "cmd", [], [], none, false⟩)]⟩,
        [("srv", 1)], [], ["srv"], ["srv"], ["srv"], ["srv"], 10, 60⟩
    ∧ ((⟨.CONNECTED, some ⟨[("srv", ⟨"stdio", some "cmd", [], [], none, false⟩)]⟩,
        [("srv", 1)], [], ["srv"], ["srv"], ["srv"], ["srv"], 10, 60⟩ : Mgr).call_tool
        "srv" "fmt" (.success 3) (.ok (.withContent "r"))).connectAttempted = false
    ∧ lookupKey ((⟨.CONNECTED, some ⟨[("srv", ⟨"stdio", some "cmd", [], [], none, false⟩)]⟩,
        [("srv", 1)], [], ["srv"], ["srv"], ["srv"], ["srv"], 10, 60⟩ : Mgr).call_tool
        "srv" "fmt" (.success 3) (.ok (.withContent "r"))).mgr.sessions "srv" = some 1 := by
  have h := c10_read_timeout_frame
    ⟨.CONNECTED, some ⟨[("srv", ⟨"stdio", some "cmd", [], [], none, false⟩)]⟩,
      [("srv", 1)], [], ["srv"], ["srv"], ["srv"], ["srv"], 10, 60⟩
    "srv" "fmt" (.success 2) (.success 3) (.ok (.withContent "r")) 1 60
    ⟨[("srv", ⟨"stdio", some "cmd", [], [], none, false⟩)]⟩
    ⟨"stdio", some "cmd", [], [], none, false⟩
    (by decide) rfl (by decide) rfl (by decide) rfl
  exact ⟨h.1, h.2.1, h.2.2.2.2.1, h.2.2.2.2.2⟩

/- ## Claim C7 -/

/-- One `list_tools` call issues at most one underlying list-tools
protocol call, on every path. -/
theorem list_tools_protocolCalls_le_one (m : Mgr) (s : String) (co : ConnectOutcome)
    (lo : ListOutcome) : (m.list_tools s co lo).protocolCalls ≤ 1 := by
  unfold Mgr.list_tools
  split
  next e hv => simp
  next hv =>
  split
  next ts hca => simp
  next hca =>
  split
  next hcfg => simp
  next cfg hcfg =>
  split
  next hget => simp
  next sc hget =>
  cases hcr : (connectToServer m s sc co).result <;> cases lo <;> simp [hcr]

/-- After a successful `list_tools`, the returned descriptor list is in the
per-server cache of the resulting manager, and that manager is at least
INITIALIZED. -/
theorem list_tools_ok_facts (m : Mgr) (s : String) (co : ConnectOutcome) (lo : ListOutcome)
    (ts : List Tool) (h : (m.list_tools s co lo).result = .ok ts) :
    lookupKey (m.list_tools s co lo).mgr.tools_cache s = some ts
    ∧ 1 ≤ stateIdx (m.list_tools s co lo).mgr.state := by
  revert h
  unfold Mgr.list_tools
  split
  next e hv => intro h; simp at h
  next hv =>
  have hs1 : 1 ≤ stateIdx m.state := validate_none_ge m _ _ hv
  split
  next ts0 hca =>
      intro h
      simp at h
      subst h
      exact ⟨by simpa using hca, by simpa using hs1⟩
  next hca =>
  split
  next hcfg => intro h; simp at h
  next cfg hcfg =>
  split
  next hget => intro h; simp at h
  next sc hget =>
  cases hcr : (connectToServer m s sc co).result
  case error e => cases lo <;> (intro h; simp [hcr] at h)
  case ok a =>
    cases lo
    case fail e => intro h; simp [hcr] at h
    case ok ts0 =>
      intro h
      simp [hcr] at h
      subst h
      refine ⟨by simp [hcr, lookupKey_setKey_self], ?_⟩
      have h2 := stateIdx_le_connectToServer m s sc co
      simpa [hcr] using le_trans hs1 h2

/-- C7: when a first `list_tools` for a server succeeds, it issued at most
one underlying list-tools protocol call and populated the per-server
cache, and a second `list_tools` for the same server (no intervening
cleanup) issues zero protocol calls, attempts no connection, returns the
same cached descriptor list, and leaves the manager untouched. -/
theorem c7_list_tools_cached (m : Mgr) (s : String) (co co2 : ConnectOutcome)
    (lo lo2 : ListOutcome) (ts : List Tool)
    (h : (m.list_tools s co lo).result = .ok ts) :
    (m.list_tools s co lo).protocolCalls ≤ 1
    ∧ lookupKey (m.list_tools s co lo).mgr.tools_cache s = some ts
    ∧ ((m.list_tools s co lo).mgr.list_tools s co2 lo2).protocolCalls = 0
    ∧ ((m.list_tools s co lo).mgr.list_tools s co2 lo2).result = .ok ts
    ∧ ((m.list_tools s co lo).mgr.list_tools s co2 lo2).connectAttempted = false
    ∧ ((m.list_tools s co lo).mgr.list_tools s co2 lo2).mgr = (m.list_tools s co lo).mgr := by
  obtain ⟨hcache, hstate⟩ := list_tools_ok_facts m s co lo ts h
  have hhit0 : ∀ m1 : Mgr, 1 ≤ stateIdx m1.state → lookupKey m1.tools_cache s = some ts →
      m1.list_tools s co2 lo2 = ⟨.ok ts, m1, false, 0⟩ := by
    intro m1 h1 h2
    simp only [Mgr.list_tools, validate_none_of_ge m1 "list_tools" h1, h2]
  have hhit := hhit0 (m.list_tools s co lo).mgr hstate hcache
  exact ⟨list_tools_protocolCalls_le_one m s co lo, hcache,
         by rw [hhit], by rw [hhit], by rw [hhit], by rw [hhit]⟩

/-- Witness for C7: a fresh INITIALIZED manager with one configured server;
the first `list_tools` succeeds over the wire, the second is a pure cache
hit. -/
theorem c7_list_tools_cached_witness :
    ((⟨.INITIALIZED, some ⟨[("s", ⟨"stdio", some "c", [], [], none, false⟩)]⟩,
        [], [], [], [], [], [], 10, 60⟩ : Mgr).list_tools
        "s" (.success 1) (.ok [⟨"t", "d", "sch"⟩])).protocolCalls ≤ 1
    ∧ lookupKey ((⟨.INITIALIZED, some ⟨[("s", ⟨"stdio", some "c", [], [], none, false⟩)]⟩,
        [], [], [], [], [], [], 10, 60⟩ : Mgr).list_tools
        "s" (.success 1) (.ok [⟨"t", "d", "sch"⟩])).mgr.tools_cache "s" = some [⟨"t", "d", "sch"⟩]
    ∧ (((⟨.INITIALIZED, some ⟨[("s", ⟨"stdio", some "c", [], [], none, false⟩)]⟩,
        [], [], [], [], [], [], 10, 60⟩ : Mgr).list_tools
        "s" (.success 1) (.ok [⟨"t", "d", "sch"⟩])).mgr.list_tools
        "s" (.success 2) (.ok [])).protocolCalls = 0
    ∧ (((⟨.INITIALIZED, some ⟨[("s", ⟨"stdio", some "c", [], [], none, false⟩)]⟩,
        [], [], [], [], [], [], 10, 60⟩ : Mgr).list_tools
        "s" (.success 1) (.ok [⟨"t", "d", "sch"⟩])).mgr.list_tools
        "s" (.success 2) (.ok [])).result = .ok [⟨"t", "d", "sch"⟩]
    ∧ (((⟨.INITIALIZED, some ⟨[("s", ⟨"stdio", some "c", [], [], none, false⟩)]⟩,
        [], [], [], [], [], [], 10, 60⟩ : Mgr).list_tools
        "s" (.success 1) (.ok [⟨"t", "d", "sch"⟩])).mgr.list_tools
        "s" (.success 2) (.ok [])).connectAttempted = false
    ∧ (((⟨.INITIALIZED, some ⟨[("s", ⟨"stdio", some "c", [], [], none, false⟩)]⟩,
        [], [], [], [], [], [], 10, 60⟩ : Mgr).list_tools
        "s" (.success 1) (.ok [⟨"t", "d", "sch"⟩])).mgr.list_tools
        "s" (.success 2) (.ok [])).mgr =
      ((⟨.INITIALIZED, some ⟨[("s", ⟨"stdio", some "c", [], [], none, false⟩)]⟩,
        [], [], [], [], [], [], 10, 60⟩ : Mgr).list_tools
        "s" (.success 1) (.ok [⟨"t", "d", "sch"⟩])).mgr := by
  exact c7_list_tools_cached
    ⟨.INITIALIZED, some ⟨[("s", ⟨"stdio", some "c", [], [], none, false⟩)]⟩,
      [], [], [], [], [], [], 10, 60⟩
    "s" (.success 1) (.success 2) (.ok [⟨"t", "d", "sch"⟩]) (.ok [])
    [⟨"t", "d", "sch"⟩] (by decide)

/- ## Claim C2 -/

/-- C2 counterexample: re-running `initialize` while a session is open
moves the state back to INITIALIZED while the session map stays nonempty,
so the claimed invariant "CONNECTED iff at least one session is in the
map" fails on this operation sequence, and the CONNECTED→INITIALIZED move
is a backward transition not performed by cleanup. -/
theorem c2_counterexample :
    ¬ connInv ((Mgr.new 10 60).runOps
        [.initOp (.loaded ⟨[("a", ⟨"stdio", some "x", [], [], none, false⟩)]⟩),
         .callToolOp "a" "t" (.success 1) (.ok (.withContent "r")),
         .initOp (.loaded ⟨[("a", ⟨"stdio", some "x", [], [], none, false⟩)]⟩)])
    ∧ ((Mgr.new 10 60).runOps
        [.initOp (.loaded ⟨[("a", ⟨"stdio", some "x", [], [], none, false⟩)]⟩),
         .callToolOp "a" "t" (.success 1) (.ok (.withContent "r")),
         .initOp (.loaded ⟨[("a", ⟨"stdio", some "x", [], [], none, false⟩)]⟩)]).state =
        .INITIALIZED
    ∧ ((Mgr.new 10 60).runOps
        [.initOp (.loaded ⟨[("a", ⟨"stdio", some "x", [], [], none, false⟩)]⟩),
         .callToolOp "a" "t" (.success 1) (.ok (.withContent "r")),
         .initOp (.loaded ⟨[("a", ⟨"stdio", some "x", [], [], none, false⟩)]⟩)]).sessions =
        [("a", 1)] := by
  exact ⟨by decide, by decide, by decide⟩

/-- C2 as amended: along every operation sequence that never invokes
`initialize` while sessions are open, the manager is CONNECTED exactly when
at least one session is in the session map; under the same proviso every
non-cleanup step moves the lifecycle state only forward, and a cleanup
step resets it to UNINITIALIZED. -/
theorem c2_invariant_no_reinit (m : Mgr) (ops : List MOp)
    (hinv : connInv m) (hno : noReinitOpen m ops) :
    connInv (m.runOps ops)
    ∧ (∀ (m2 : Mgr) (op : MOp), connInv m2 → (op.isInitOp = true → m2.sessions = []) →
        (op ≠ MOp.cleanupOp → stateIdx m2.state ≤ stateIdx (m2.step op).state)
        ∧ (m2.step MOp.cleanupOp).state = .UNINITIALIZED) := by
  refine ⟨runOps_connInv m ops hinv hno, ?_⟩
  intro m2 op h1 h2
  exact ⟨fun hne => stateIdx_le_step m2 op h1 h2 hne, rfl⟩

/-- Witness for C2 (amended): a sequence that loads the config, connects
one server and then cleans up preserves the invariant throughout. -/
theorem c2_invariant_no_reinit_witness :
    connInv ((Mgr.new 10 60).runOps
        [.initOp (.loaded ⟨[("a", ⟨"stdio", some "x", [], [], none, false⟩)]⟩),
         .callToolOp "a" "t" (.success 1) (.ok (.withContent "r")),
         .cleanupOp])
    ∧ (∀ (m2 : Mgr) (op : MOp), connInv m2 → (op.isInitOp = true → m2.sessions = []) →
        (op ≠ MOp.cleanupOp → stateIdx m2.state ≤ stateIdx (m2.step op).state)
        ∧ (m2.step MOp.cleanupOp).state = .UNINITIALIZED) := by
  exact c2_invariant_no_reinit (Mgr.new 10 60)
    [.initOp (.loaded ⟨[("a", ⟨"stdio", some "x", [], [], none, false⟩)]⟩),
     .callToolOp "a" "t" (.success 1) (.ok (.withContent "r")),
     .cleanupOp]
    (by decide) (by decide)

end McpCoordinator
